import Mathlib

/-!
Verification of the Origin governance core.

A shallow embedding, in Lean 4, of the security- and storage-critical parts of
the Origin repository:

* `src/security/vault_manager.py` — `VaultEncryption`, `AccessControl`, `SecretVault`
* `src/governance/yubikey_auth.py` — `HOTP`, `YubiKeyManager`
* `src/database/immutable_db_manager.py` — `ImmuDBManager`
* `src/database/event_store_manager.py` — `EventStoreClient`, `EventStoreManager`
* `src/database/triple_store_manager.py` — `TripleStoreManager`

Python byte strings are modelled as `List Nat` with every element `< 256`,
Python dicts as insertion-ordered association lists, wall-clock time as an
explicit `Nat` parameter, and randomness (fresh tokens, UUIDs) as explicit
parameters.  32-bit machine arithmetic is `Nat` with explicit `% 2 ^ 32`.
SHA-1, SHA-256 and HMAC-SHA-1 are implemented in full so that the HOTP codes
and content hashes of the source are computed bit-exactly.
-/

set_option maxRecDepth 100000
set_option maxHeartbeats 2000000

namespace Origin

/-- Byte strings (`bytes` in Python): lists of naturals, each `< 256`. -/
abbrev Bytes := List Nat

/-! 32-bit word arithmetic over `Nat` -/

/-- Truncation to 32 bits. -/
def mod32 (x : Nat) : Nat := x % 4294967296

/-- 32-bit left rotation. -/
def rotl32 (n x : Nat) : Nat := ((x <<< n) % 4294967296) ||| (x >>> (32 - n))

/-- 32-bit right rotation. -/
def rotr32 (n x : Nat) : Nat := (x >>> n) ||| ((x <<< (32 - n)) % 4294967296)

/-- Bitwise complement within 32 bits. -/
def not32 (x : Nat) : Nat := 4294967295 ^^^ x

/-- Big-endian 32-bit word from four bytes of a block. -/
def beWord (block : Bytes) (i : Nat) : Nat :=
  (block.getD (4 * i) 0) <<< 24 ||| (block.getD (4 * i + 1) 0) <<< 16 |||
    (block.getD (4 * i + 2) 0) <<< 8 ||| block.getD (4 * i + 3) 0

/-- Big-endian 4-byte serialization of a 32-bit word. -/
def u32be (x : Nat) : Bytes :=
  [(x >>> 24) % 256, (x >>> 16) % 256, (x >>> 8) % 256, x % 256]

/-- Big-endian 8-byte serialization of a 64-bit value (`int.to_bytes` with 8 big-endian bytes). -/
def u64be (x : Nat) : Bytes :=
  [(x >>> 56) % 256, (x >>> 48) % 256, (x >>> 40) % 256, (x >>> 32) % 256,
   (x >>> 24) % 256, (x >>> 16) % 256, (x >>> 8) % 256, x % 256]

/-- Split a byte string into 64-byte blocks (fuel-recursive so it reduces by `decide`). -/
def toBlocksAux : Nat → Bytes → List Bytes
  | 0, _ => []
  | _ + 1, [] => []
  | fuel + 1, l => l.take 64 :: toBlocksAux fuel (l.drop 64)

/-- Split a padded message into its 64-byte blocks. -/
def toBlocks (l : Bytes) : List Bytes := toBlocksAux l.length l

/-- Merkle–Damgård padding shared by SHA-1 and SHA-256: append `0x80`, zero bytes to 56 mod
64, then the 64-bit big-endian bit length. -/
def shaPad (msg : Bytes) : Bytes :=
  msg ++ [0x80] ++ List.replicate ((119 - msg.length % 64) % 64) 0 ++ u64be (8 * msg.length)

/-! SHA-1 (FIPS 180-4), as used by the source through hmac.new with digestmod sha1 -/

/-- A 16-word sliding window of the message schedule, `w[i] .. w[i+15]` at round `i`. -/
abbrev Win16 :=
  Nat × Nat × Nat × Nat × Nat × Nat × Nat × Nat ×
  Nat × Nat × Nat × Nat × Nat × Nat × Nat × Nat

/-- The initial window: the sixteen big-endian words of one 64-byte block. -/
def initWin (b : Bytes) : Win16 :=
  (beWord b 0, beWord b 1, beWord b 2, beWord b 3, beWord b 4, beWord b 5,
   beWord b 6, beWord b 7, beWord b 8, beWord b 9, beWord b 10, beWord b 11,
   beWord b 12, beWord b 13, beWord b 14, beWord b 15)

/-- SHA-1 round function selection. -/
def sha1F (i b c d : Nat) : Nat :=
  if i < 20 then (b &&& c) ||| (not32 b &&& d)
  else if i < 40 then b ^^^ c ^^^ d
  else if i < 60 then (b &&& c) ||| (b &&& d) ||| (c &&& d)
  else b ^^^ c ^^^ d

/-- SHA-1 round constants. -/
def sha1K (i : Nat) : Nat :=
  if i < 20 then 0x5A827999
  else if i < 40 then 0x6ED9EBA1
  else if i < 60 then 0x8F1BBCDC
  else 0xCA62C1D6

/-- The 80 SHA-1 rounds: at round `i` the window holds `w[i] .. w[i+15]`; the word for
round `i+16` is `rotl1 (w[i+13] ^ w[i+8] ^ w[i+2] ^ w[i])`.  Structural recursion on the
remaining round count so the whole loop reduces inside `decide`. -/
def sha1Rounds : Nat → Nat → Win16 → Nat × Nat × Nat × Nat × Nat →
    Nat × Nat × Nat × Nat × Nat
  | _, 0, _, st => st
  | i, n + 1,
    (w0, w1, w2, w3, w4, w5, w6, w7, w8, w9, w10, w11, w12, w13, w14, w15),
    (a, b, c, d, e) =>
    let temp := mod32 (rotl32 5 a + sha1F i b c d + e + sha1K i + w0)
    let w16 := rotl32 1 (w13 ^^^ w8 ^^^ w2 ^^^ w0)
    sha1Rounds (i + 1) n
      (w1, w2, w3, w4, w5, w6, w7, w8, w9, w10, w11, w12, w13, w14, w15, w16)
      (temp, a, rotl32 30 b, c, d)

/-- One SHA-1 block compression. -/
def sha1Compress (h : List Nat) (block : Bytes) : List Nat :=
  let s := sha1Rounds 0 80 (initWin block)
    (h.getD 0 0, h.getD 1 0, h.getD 2 0, h.getD 3 0, h.getD 4 0)
  match s with
  | (a, b, c, d, e) =>
    [mod32 (h.getD 0 0 + a), mod32 (h.getD 1 0 + b), mod32 (h.getD 2 0 + c),
     mod32 (h.getD 3 0 + d), mod32 (h.getD 4 0 + e)]

/-- SHA-1 digest (20 bytes). -/
def sha1 (msg : Bytes) : Bytes :=
  ((toBlocks (shaPad msg)).foldl sha1Compress
      [0x67452301, 0xEFCDAB89, 0x98BADCFE, 0x10325476, 0xC3D2E1F0]).flatMap u32be

/-! SHA-256 (FIPS 180-4), as used by `hashlib.sha256` -/

/-- The 64 SHA-256 round constants. -/
def sha256K : List Nat :=
  [1116352408, 1899447441, 3049323471, 3921009573, 961987163, 1508970993, 2453635748,
   2870763221, 3624381080, 310598401, 607225278, 1426881987, 1925078388, 2162078206,
   2614888103, 3248222580, 3835390401, 4022224774, 264347078, 604807628, 770255983,
   1249150122, 1555081692, 1996064986, 2554220882, 2821834349, 2952996808, 3210313671,
   3336571891, 3584528711, 113926993, 338241895, 666307205, 773529912, 1294757372,
   1396182291, 1695183700, 1986661051, 2177026350, 2456956037, 2730485921, 2820302411,
   3259730800, 3345764771, 3516065817, 3600352804, 4094571909, 275423344, 430227734,
   506948616, 659060556, 883997877, 958139571, 1322822218, 1537002063, 1747873779,
   1955562222, 2024104815, 2227730452, 2361852424, 2428436474, 2756734187, 3204031479,
   3329325298]

/-- SHA-256 small sigma 0. -/
def ssig0 (x : Nat) : Nat := rotr32 7 x ^^^ rotr32 18 x ^^^ (x >>> 3)

/-- SHA-256 small sigma 1. -/
def ssig1 (x : Nat) : Nat := rotr32 17 x ^^^ rotr32 19 x ^^^ (x >>> 10)

/-- SHA-256 big sigma 0. -/
def bsig0 (x : Nat) : Nat := rotr32 2 x ^^^ rotr32 13 x ^^^ rotr32 22 x

/-- SHA-256 big sigma 1. -/
def bsig1 (x : Nat) : Nat := rotr32 6 x ^^^ rotr32 11 x ^^^ rotr32 25 x

/-- The 64 SHA-256 rounds: at round `i` the window holds `w[i] .. w[i+15]`; the word for
round `i+16` is `σ1 w[i+14] + w[i+9] + σ0 w[i+1] + w[i]` mod 2^32. -/
def sha256Rounds : Nat → Nat → Win16 →
    Nat × Nat × Nat × Nat × Nat × Nat × Nat × Nat →
    Nat × Nat × Nat × Nat × Nat × Nat × Nat × Nat
  | _, 0, _, st => st
  | i, n + 1,
    (w0, w1, w2, w3, w4, w5, w6, w7, w8, w9, w10, w11, w12, w13, w14, w15),
    (a, b, c, d, e, f, g, hh) =>
    let t1 := mod32 (hh + bsig1 e + ((e &&& f) ^^^ (not32 e &&& g)) +
                     sha256K.getD i 0 + w0)
    let t2 := mod32 (bsig0 a + ((a &&& b) ^^^ (a &&& c) ^^^ (b &&& c)))
    let w16 := mod32 (ssig1 w14 + w9 + ssig0 w1 + w0)
    sha256Rounds (i + 1) n
      (w1, w2, w3, w4, w5, w6, w7, w8, w9, w10, w11, w12, w13, w14, w15, w16)
      (mod32 (t1 + t2), a, b, c, mod32 (d + t1), e, f, g)

/-- One SHA-256 block compression. -/
def sha256Compress (h : List Nat) (block : Bytes) : List Nat :=
  let s := sha256Rounds 0 64 (initWin block)
    (h.getD 0 0, h.getD 1 0, h.getD 2 0, h.getD 3 0,
     h.getD 4 0, h.getD 5 0, h.getD 6 0, h.getD 7 0)
  match s with
  | (a, b, c, d, e, f, g, hh) =>
    [mod32 (h.getD 0 0 + a), mod32 (h.getD 1 0 + b), mod32 (h.getD 2 0 + c),
     mod32 (h.getD 3 0 + d), mod32 (h.getD 4 0 + e), mod32 (h.getD 5 0 + f),
     mod32 (h.getD 6 0 + g), mod32 (h.getD 7 0 + hh)]

/-- SHA-256 digest (32 bytes). -/
def sha256 (msg : Bytes) : Bytes :=
  ((toBlocks (shaPad msg)).foldl sha256Compress
      [0x6a09e667, 0xbb67ae85, 0x3c6ef372, 0xa54ff53a,
       0x510e527f, 0x9b05688c, 0x1f83d9ab, 0x5be0cd19]).flatMap u32be

/-! Hex digests and string/byte conversions -/

/-- One hexadecimal digit character. -/
def hexDigit (n : Nat) : Char :=
  if n < 10 then Char.ofNat (48 + n) else Char.ofNat (87 + n)

/-- Lowercase hex encoding of a byte string (`.hexdigest()` in Python). -/
def hexOfBytes (b : Bytes) : String :=
  String.mk (b.flatMap fun x => [hexDigit (x / 16 % 16), hexDigit (x % 16)])

/-- `hashlib.sha256(s).hexdigest()` for a byte string. -/
def sha256Hex (msg : Bytes) : String := hexOfBytes (sha256 msg)

/-- UTF-8 encoding of a string (`str.encode` with codec utf-8), as the code points of the
characters; the sources only hash and compare ASCII data, for which this agrees with
CPython byte for byte. -/
def strBytes (s : String) : Bytes := s.data.map Char.toNat

/-! HMAC-SHA-1 (FIPS 198-1) -/

/-- HMAC-SHA-1 of a message under a key (FIPS 198-1, 64-byte block size). -/
def hmacSha1 (key msg : Bytes) : Bytes :=
  let k0 := if key.length > 64 then sha1 key else key
  let kp := k0 ++ List.replicate (64 - k0.length) 0
  sha1 ((kp.map (fun b => b ^^^ 0x5c)) ++ sha1 ((kp.map (fun b => b ^^^ 0x36)) ++ msg))

/-! `HOTP.generate` (src/governance/yubikey_auth.py, lines 204-231) -/

/-- The six decimal digit bytes of `str(n).zfill(6).encode()` for `n < 1000000`. -/
def sixDigits (n : Nat) : Bytes :=
  [48 + n / 100000 % 10, 48 + n / 10000 % 10, 48 + n / 1000 % 10,
   48 + n / 100 % 10, 48 + n / 10 % 10, 48 + n % 10]

/-- `HOTP.generate(counter)`: HMAC-SHA-1 of the 8-byte big-endian counter under the
credential secret, dynamically truncated and reduced mod 10^6, returned as the six
ASCII digit bytes. -/
def hotpGenerate (secret : Bytes) (counter : Nat) : Bytes :=
  let h := hmacSha1 secret (u64be counter)
  let offset := h.getD 19 0 &&& 0xf
  let binary := (h.getD offset 0 &&& 0x7f) <<< 24 ||| (h.getD (offset + 1) 0 &&& 0xff) <<< 16 |||
                (h.getD (offset + 2) 0 &&& 0xff) <<< 8 ||| (h.getD (offset + 3) 0 &&& 0xff)
  sixDigits (binary % 1000000)

/-! The YubiKey manager (src/governance/yubikey_auth.py).  Counters live in the manager
object; the `env_` fields mirror the environment variables written by
`_persist_counter_state`, i.e. the counter state that survives a process restart. -/

/-- One backup YubiKey credential (an entry of `self.backup_yubikeys`). -/
structure BackupKey where
  id : String
  secret : Bytes
  counter : Nat
deriving DecidableEq

/-- The mutable state of `YubiKeyManager`. -/
structure YubiKeyManager where
  primary_yubikey_secret : Bytes
  primary_yubikey_counter : Nat
  backup_yubikeys : List BackupKey
  env_primary_counter : Nat
  env_backup_counters : List Nat
deriving DecidableEq

/-- `_persist_counter_state`: copy the in-memory counters to the persisted
(environment-variable) state. -/
def persist_counter_state (m : YubiKeyManager) : YubiKeyManager :=
  { m with env_primary_counter := m.primary_yubikey_counter,
           env_backup_counters := m.backup_yubikeys.map BackupKey.counter }

/-- The scan loop `for i in range(start, start + n)` of `validate_yubikey`: the first
counter `i` in the window whose HOTP code equals the candidate, if any.  (The source
compares with `hmac.compare_digest`, which is equality of the byte strings.) -/
def scanFrom (secret otp : Bytes) : Nat → Nat → Option Nat
  | _, 0 => none
  | i, n + 1 => if hotpGenerate secret i = otp then some i else scanFrom secret otp (i + 1) n

/-- The backup-credential fallback loop of `validate_yubikey`: try each backup key in
order with a 20-wide window; on the first match return the backup list where the counter
of the matched key is advanced past the matched value. -/
def scanBackups (otp : Bytes) : List BackupKey → Option (List BackupKey)
  | [] => none
  | b :: rest =>
    match scanFrom b.secret otp b.counter 20 with
    | some i => some ({ b with counter := i + 1 } :: rest)
    | none => (scanBackups otp rest).map (fun bs => b :: bs)

/-- `YubiKeyManager.validate_yubikey(otp)` (lines 54-86): scan the primary credential
over counters `[counter, counter + 20)`; on a match set the counter to the matched value
plus one and persist.  Otherwise try each backup credential the same way.  No match at
all: return `False` with the state untouched. -/
def validate_yubikey (otp : Bytes) (m : YubiKeyManager) : Bool × YubiKeyManager :=
  match scanFrom m.primary_yubikey_secret otp m.primary_yubikey_counter 20 with
  | some i =>
    (true, persist_counter_state { m with primary_yubikey_counter := i + 1 })
  | none =>
    match scanBackups otp m.backup_yubikeys with
    | some bs => (true, persist_counter_state { m with backup_yubikeys := bs })
    | none => (false, m)

/-! Properties of the scan loops -/

/-- Characterization of a failed window scan: no counter in `[i, i + n)` produces the
candidate code. -/
theorem scanFrom_eq_none (s otp : Bytes) :
    ∀ (n i : Nat), (scanFrom s otp i n = none ↔
      ∀ j, i ≤ j → j < i + n → hotpGenerate s j ≠ otp) := by
  intro n
  induction n with
  | zero =>
    intro i
    constructor
    · intro _ j h1 h2
      omega
    · intro _
      rfl
  | succ n ih =>
    intro i
    by_cases h : hotpGenerate s i = otp
    · simp only [scanFrom, if_pos h]
      constructor
      · intro hc
        exact absurd hc (by simp)
      · intro hall
        exact absurd h (hall i le_rfl (by omega))
    · simp only [scanFrom, if_neg h]
      rw [ih (i + 1)]
      constructor
      · intro hall j h1 h2
        rcases Nat.eq_or_lt_of_le h1 with heq | hlt
        · exact heq ▸ h
        · exact hall j hlt (by omega)
      · intro hall j h1 h2
        exact hall j (by omega) (by omega)

/-- Characterization of a successful window scan: the matched counter is the first one in
`[i, i + n)` whose code equals the candidate. -/
theorem scanFrom_eq_some (s otp : Bytes) :
    ∀ (n i m : Nat), (scanFrom s otp i n = some m ↔
      (i ≤ m ∧ m < i + n ∧ hotpGenerate s m = otp ∧
        ∀ j, i ≤ j → j < m → hotpGenerate s j ≠ otp)) := by
  intro n
  induction n with
  | zero =>
    intro i m
    constructor
    · intro hc
      exact absurd hc (by simp [scanFrom])
    · intro h
      omega
  | succ n ih =>
    intro i m
    by_cases h : hotpGenerate s i = otp
    · simp only [scanFrom, if_pos h]
      constructor
      · intro hm
        cases hm
        exact ⟨le_rfl, by omega, h, fun j h1 h2 => by omega⟩
      · intro hm
        rcases Nat.eq_or_lt_of_le hm.1 with heq | hlt
        · exact congrArg some heq
        · exact absurd h (hm.2.2.2 i le_rfl hlt)
    · simp only [scanFrom, if_neg h]
      rw [ih (i + 1)]
      constructor
      · intro hm
        refine ⟨by omega, by omega, hm.2.2.1, fun j h1 h2 => ?_⟩
        rcases Nat.eq_or_lt_of_le h1 with heq | hlt
        · exact heq ▸ h
        · exact hm.2.2.2 j hlt h2
      · intro hm
        have hmi : i < m := by
          rcases Nat.eq_or_lt_of_le hm.1 with heq | hlt
          · exact absurd (heq ▸ hm.2.2.1) h
          · exact hlt
        exact ⟨hmi, by omega, hm.2.2.1, fun j h1 h2 => hm.2.2.2 j (by omega) h2⟩

/-- A failed scan over every backup credential leaves `scanBackups` with no result. -/
theorem scanBackups_eq_none (otp : Bytes) :
    ∀ bs : List BackupKey,
      (∀ b, b ∈ bs → ∀ j, b.counter ≤ j → j < b.counter + 20 →
        hotpGenerate b.secret j ≠ otp) →
      scanBackups otp bs = none := by
  intro bs
  induction bs with
  | nil => intro _; rfl
  | cons b rest ih =>
    intro hall
    have hb : scanFrom b.secret otp b.counter 20 = none :=
      (scanFrom_eq_none b.secret otp 20 b.counter).mpr
        (hall b (List.mem_cons_self b rest))
    simp only [scanBackups, hb]
    rw [ih (fun b2 hb2 => hall b2 (List.mem_cons_of_mem b hb2))]
    rfl

/-- Every generated HOTP code consists of exactly six digit bytes, so it is never the
empty byte string. -/
theorem hotpGenerate_ne_nil (s : Bytes) (c : Nat) : hotpGenerate s c ≠ [] := by
  simp [hotpGenerate, sixDigits]

/-- C3.  HOTP window and counter advance, for a manager with no backup credentials and a
candidate code generated at counter `c`.  The non-collision hypotheses say that within
the scan window (and the 20 counters following `c`) the HOTP codes determine the counter
uniquely, which is what "a candidate code generated at counter c" presupposes.  Then:
the code is accepted if and only if `counter <= c < counter + 20`; on acceptance the
in-memory and the persisted counter advance to `c + 1`; and replaying the same code
against the resulting state is rejected and leaves that state unchanged — so the code is
accepted exactly once. -/
theorem C3_hotp_window_and_advance (m : YubiKeyManager) (c : Nat)
    (hb : m.backup_yubikeys = [])
    (huniq : ∀ i, m.primary_yubikey_counter ≤ i → i < m.primary_yubikey_counter + 20 →
      (hotpGenerate m.primary_yubikey_secret i = hotpGenerate m.primary_yubikey_secret c ↔
        i = c))
    (hrep : ∀ i, c < i → i < c + 21 →
      hotpGenerate m.primary_yubikey_secret i ≠ hotpGenerate m.primary_yubikey_secret c) :
    ((validate_yubikey (hotpGenerate m.primary_yubikey_secret c) m).1 = true ↔
      (m.primary_yubikey_counter ≤ c ∧ c < m.primary_yubikey_counter + 20)) ∧
    (m.primary_yubikey_counter ≤ c → c < m.primary_yubikey_counter + 20 →
      (validate_yubikey (hotpGenerate m.primary_yubikey_secret c) m).2.primary_yubikey_counter
          = c + 1 ∧
      (validate_yubikey (hotpGenerate m.primary_yubikey_secret c) m).2.env_primary_counter
          = c + 1 ∧
      validate_yubikey (hotpGenerate m.primary_yubikey_secret c)
          (validate_yubikey (hotpGenerate m.primary_yubikey_secret c) m).2 =
        (false, (validate_yubikey (hotpGenerate m.primary_yubikey_secret c) m).2)) := by
  by_cases hin : m.primary_yubikey_counter ≤ c ∧ c < m.primary_yubikey_counter + 20
  · have hscan : scanFrom m.primary_yubikey_secret
        (hotpGenerate m.primary_yubikey_secret c) m.primary_yubikey_counter 20 = some c := by
      rw [scanFrom_eq_some]
      refine ⟨hin.1, hin.2, rfl, fun j h1 h2 => ?_⟩
      intro hj
      have := (huniq j h1 (by omega)).mp hj
      omega
    have hval : validate_yubikey (hotpGenerate m.primary_yubikey_secret c) m =
        (true, persist_counter_state { m with primary_yubikey_counter := c + 1 }) := by
      simp only [validate_yubikey, hscan]
    have hstate2 : (validate_yubikey (hotpGenerate m.primary_yubikey_secret c) m).2 =
        persist_counter_state { m with primary_yubikey_counter := c + 1 } := by
      rw [hval]
    refine ⟨by simp [hval, hin.1, hin.2], fun _ _ => ?_⟩
    refine ⟨by rw [hstate2]; rfl, by rw [hstate2]; rfl, ?_⟩
    rw [hstate2]
    have hscan2 : scanFrom m.primary_yubikey_secret
        (hotpGenerate m.primary_yubikey_secret c) (c + 1) 20 = none := by
      rw [scanFrom_eq_none]
      intro j h1 h2
      exact hrep j (by omega) (by omega)
    have hbk2 : (persist_counter_state
        { m with primary_yubikey_counter := c + 1 }).backup_yubikeys = [] := hb
    simp only [validate_yubikey, persist_counter_state, hscan2, hb, scanBackups]
  · have hscan : scanFrom m.primary_yubikey_secret
        (hotpGenerate m.primary_yubikey_secret c) m.primary_yubikey_counter 20 = none := by
      rw [scanFrom_eq_none]
      intro j h1 h2 hj
      have := (huniq j h1 h2).mp hj
      omega
    have hval : validate_yubikey (hotpGenerate m.primary_yubikey_secret c) m = (false, m) := by
      simp only [validate_yubikey, hscan, hb, scanBackups]
    constructor
    · simp only [hval]
      constructor
      · intro hc
        exact absurd hc (by simp)
      · intro hc
        exact absurd hc hin
    · intro h1 h2
      exact absurd ⟨h1, h2⟩ hin

/-- C9.  HOTP failure frame: a candidate that matches no counter in the primary window
nor in any backup window is rejected and the whole manager state — in particular every
in-memory and persisted counter — is returned exactly as it was. -/
theorem C9_no_match_leaves_state (m : YubiKeyManager) (otp : Bytes)
    (hp : ∀ j, m.primary_yubikey_counter ≤ j → j < m.primary_yubikey_counter + 20 →
      hotpGenerate m.primary_yubikey_secret j ≠ otp)
    (hbk : ∀ b, b ∈ m.backup_yubikeys → ∀ j, b.counter ≤ j → j < b.counter + 20 →
      hotpGenerate b.secret j ≠ otp) :
    validate_yubikey otp m = (false, m) := by
  have hscan : scanFrom m.primary_yubikey_secret otp m.primary_yubikey_counter 20 = none :=
    (scanFrom_eq_none m.primary_yubikey_secret otp 20 m.primary_yubikey_counter).mpr hp
  have hbs : scanBackups otp m.backup_yubikeys = none := scanBackups_eq_none otp _ hbk
  simp only [validate_yubikey, hscan, hbs]

/-! Concrete fixtures for the HOTP witnesses.  `testSecret` is the default
`PRIMARY_YUBIKEY_SECRET` of the source; the `hotp_code_N` theorems evaluate its
codes at counters `0..23`. -/

/-- The default primary credential secret, `test-secret-key`. -/
def testSecret : Bytes := strBytes "test-secret-key"

/-- The HOTP code of `testSecret` at counter 0, proved by evaluating the
embedded HMAC-SHA-1 pipeline. -/
theorem hotp_code_0 : hotpGenerate testSecret 0 = strBytes "196582" := by
  decide

/-- The HOTP code of `testSecret` at counter 1, proved by evaluating the
embedded HMAC-SHA-1 pipeline. -/
theorem hotp_code_1 : hotpGenerate testSecret 1 = strBytes "972807" := by
  decide

/-- The HOTP code of `testSecret` at counter 2, proved by evaluating the
embedded HMAC-SHA-1 pipeline. -/
theorem hotp_code_2 : hotpGenerate testSecret 2 = strBytes "356568" := by
  decide

/-- The HOTP code of `testSecret` at counter 3, proved by evaluating the
embedded HMAC-SHA-1 pipeline. -/
theorem hotp_code_3 : hotpGenerate testSecret 3 = strBytes "092179" := by
  decide

/-- The HOTP code of `testSecret` at counter 4, proved by evaluating the
embedded HMAC-SHA-1 pipeline. -/
theorem hotp_code_4 : hotpGenerate testSecret 4 = strBytes "707404" := by
  decide

/-- The HOTP code of `testSecret` at counter 5, proved by evaluating the
embedded HMAC-SHA-1 pipeline. -/
theorem hotp_code_5 : hotpGenerate testSecret 5 = strBytes "294266" := by
  decide

/-- The HOTP code of `testSecret` at counter 6, proved by evaluating the
embedded HMAC-SHA-1 pipeline. -/
theorem hotp_code_6 : hotpGenerate testSecret 6 = strBytes "042188" := by
  decide

/-- The HOTP code of `testSecret` at counter 7, proved by evaluating the
embedded HMAC-SHA-1 pipeline. -/
theorem hotp_code_7 : hotpGenerate testSecret 7 = strBytes "110592" := by
  decide

/-- The HOTP code of `testSecret` at counter 8, proved by evaluating the
embedded HMAC-SHA-1 pipeline. -/
theorem hotp_code_8 : hotpGenerate testSecret 8 = strBytes "205125" := by
  decide

/-- The HOTP code of `testSecret` at counter 9, proved by evaluating the
embedded HMAC-SHA-1 pipeline. -/
theorem hotp_code_9 : hotpGenerate testSecret 9 = strBytes "442117" := by
  decide

/-- The HOTP code of `testSecret` at counter 10, proved by evaluating the
embedded HMAC-SHA-1 pipeline. -/
theorem hotp_code_10 : hotpGenerate testSecret 10 = strBytes "702963" := by
  decide

/-- The HOTP code of `testSecret` at counter 11, proved by evaluating the
embedded HMAC-SHA-1 pipeline. -/
theorem hotp_code_11 : hotpGenerate testSecret 11 = strBytes "849639" := by
  decide

/-- The HOTP code of `testSecret` at counter 12, proved by evaluating the
embedded HMAC-SHA-1 pipeline. -/
theorem hotp_code_12 : hotpGenerate testSecret 12 = strBytes "864805" := by
  decide

/-- The HOTP code of `testSecret` at counter 13, proved by evaluating the
embedded HMAC-SHA-1 pipeline. -/
theorem hotp_code_13 : hotpGenerate testSecret 13 = strBytes "797024" := by
  decide

/-- The HOTP code of `testSecret` at counter 14, proved by evaluating the
embedded HMAC-SHA-1 pipeline. -/
theorem hotp_code_14 : hotpGenerate testSecret 14 = strBytes "361092" := by
  decide

/-- The HOTP code of `testSecret` at counter 15, proved by evaluating the
embedded HMAC-SHA-1 pipeline. -/
theorem hotp_code_15 : hotpGenerate testSecret 15 = strBytes "218600" := by
  decide

/-- The HOTP code of `testSecret` at counter 16, proved by evaluating the
embedded HMAC-SHA-1 pipeline. -/
theorem hotp_code_16 : hotpGenerate testSecret 16 = strBytes "669968" := by
  decide

/-- The HOTP code of `testSecret` at counter 17, proved by evaluating the
embedded HMAC-SHA-1 pipeline. -/
theorem hotp_code_17 : hotpGenerate testSecret 17 = strBytes "545090" := by
  decide

/-- The HOTP code of `testSecret` at counter 18, proved by evaluating the
embedded HMAC-SHA-1 pipeline. -/
theorem hotp_code_18 : hotpGenerate testSecret 18 = strBytes "154245" := by
  decide

/-- The HOTP code of `testSecret` at counter 19, proved by evaluating the
embedded HMAC-SHA-1 pipeline. -/
theorem hotp_code_19 : hotpGenerate testSecret 19 = strBytes "295959" := by
  decide

/-- The HOTP code of `testSecret` at counter 20, proved by evaluating the
embedded HMAC-SHA-1 pipeline. -/
theorem hotp_code_20 : hotpGenerate testSecret 20 = strBytes "654702" := by
  decide

/-- The HOTP code of `testSecret` at counter 21, proved by evaluating the
embedded HMAC-SHA-1 pipeline. -/
theorem hotp_code_21 : hotpGenerate testSecret 21 = strBytes "342425" := by
  decide

/-- The HOTP code of `testSecret` at counter 22, proved by evaluating the
embedded HMAC-SHA-1 pipeline. -/
theorem hotp_code_22 : hotpGenerate testSecret 22 = strBytes "383191" := by
  decide

/-- The HOTP code of `testSecret` at counter 23, proved by evaluating the
embedded HMAC-SHA-1 pipeline. -/
theorem hotp_code_23 : hotpGenerate testSecret 23 = strBytes "171113" := by
  decide

/-- A fresh manager for the primary credential: counter 0, no backups. -/
def yubiTestManager : YubiKeyManager :=
  { primary_yubikey_secret := testSecret, primary_yubikey_counter := 0,
    backup_yubikeys := [], env_primary_counter := 0, env_backup_counters := [] }

/-- A manager with one backup credential, for the failure-frame witness. -/
def yubiTestManager2 : YubiKeyManager :=
  { primary_yubikey_secret := testSecret, primary_yubikey_counter := 5,
    backup_yubikeys := [{ id := "backup1", secret := strBytes "backup-secret", counter := 2 }],
    env_primary_counter := 5, env_backup_counters := [2] }

/-- Witness for C3 at the concrete manager `yubiTestManager` and counter `c = 3`: the
code of counter 3 is accepted from counter 0, both counters advance to 4, and the replay
is rejected without touching the state. -/
theorem C3_hotp_window_and_advance_witness :
    ((validate_yubikey (hotpGenerate testSecret 3) yubiTestManager).1 = true ↔
      (yubiTestManager.primary_yubikey_counter ≤ 3 ∧
        3 < yubiTestManager.primary_yubikey_counter + 20)) ∧
    (yubiTestManager.primary_yubikey_counter ≤ 3 →
      3 < yubiTestManager.primary_yubikey_counter + 20 →
      (validate_yubikey (hotpGenerate testSecret 3) yubiTestManager).2.primary_yubikey_counter
          = 4 ∧
      (validate_yubikey (hotpGenerate testSecret 3) yubiTestManager).2.env_primary_counter
          = 4 ∧
      validate_yubikey (hotpGenerate testSecret 3)
          (validate_yubikey (hotpGenerate testSecret 3) yubiTestManager).2 =
        (false, (validate_yubikey (hotpGenerate testSecret 3) yubiTestManager).2)) := by
  have hu : ∀ i, 0 ≤ i → i < 0 + 20 →
      (hotpGenerate testSecret i = hotpGenerate testSecret 3 ↔ i = 3) := by
    intro i h0 h2
    interval_cases i <;>
      simp only [hotp_code_0, hotp_code_1, hotp_code_2, hotp_code_3, hotp_code_4, hotp_code_5, hotp_code_6, hotp_code_7, hotp_code_8, hotp_code_9, hotp_code_10, hotp_code_11, hotp_code_12, hotp_code_13, hotp_code_14, hotp_code_15, hotp_code_16, hotp_code_17, hotp_code_18, hotp_code_19] <;> decide
  have hr : ∀ i, 3 < i → i < 3 + 21 →
      hotpGenerate testSecret i ≠ hotpGenerate testSecret 3 := by
    intro i h1 h2
    interval_cases i <;>
      simp only [hotp_code_3, hotp_code_4, hotp_code_5, hotp_code_6, hotp_code_7, hotp_code_8, hotp_code_9, hotp_code_10, hotp_code_11, hotp_code_12, hotp_code_13, hotp_code_14, hotp_code_15, hotp_code_16, hotp_code_17, hotp_code_18, hotp_code_19, hotp_code_20, hotp_code_21, hotp_code_22, hotp_code_23] <;> decide
  exact C3_hotp_window_and_advance yubiTestManager 3 rfl hu hr

/-- Witness for C9 at a concrete manager with one backup credential and the empty
candidate (every HOTP code has six bytes, so nothing matches). -/
theorem C9_no_match_leaves_state_witness :
    validate_yubikey [] yubiTestManager2 = (false, yubiTestManager2) := by
  have hp : ∀ j, yubiTestManager2.primary_yubikey_counter ≤ j →
      j < yubiTestManager2.primary_yubikey_counter + 20 →
      hotpGenerate yubiTestManager2.primary_yubikey_secret j ≠ [] :=
    fun j _ _ => hotpGenerate_ne_nil _ j
  have hbk : ∀ b, b ∈ yubiTestManager2.backup_yubikeys → ∀ j, b.counter ≤ j →
      j < b.counter + 20 → hotpGenerate b.secret j ≠ [] :=
    fun b _ j _ _ => hotpGenerate_ne_nil _ j
  exact C9_no_match_leaves_state yubiTestManager2 [] hp hbk

/-! The Secret Vault (src/security/vault_manager.py).

Python dicts are insertion-ordered association lists.  The audit `access_log` lists
(append-only, never read back by any operation) are omitted.  `datetime.now()` is an
explicit `now` field measured in seconds.  Random token generation (`os.urandom`) is an
explicit fresh-token parameter. -/

/-- First-match lookup in an association list (keys are unique by construction). -/
def lookupKV {α : Type} : List (String × α) → String → Option α
  | [], _ => none
  | (k, v) :: rest, key => if k = key then some v else lookupKV rest key

/-- Python `d[key] = v`: replace in place if present, else append. -/
def insertKV {α : Type} : List (String × α) → String → α → List (String × α)
  | [], key, v => [(key, v)]
  | (k, w) :: rest, key, v =>
    if k = key then (k, v) :: rest else (k, w) :: insertKV rest key v

/-- Python `del d[key]`. -/
def eraseKV {α : Type} : List (String × α) → String → List (String × α)
  | [], _ => []
  | (k, w) :: rest, key => if k = key then rest else (k, w) :: eraseKV rest key

/-- The permission flags consulted by the vault, one per key read with
`permissions.get(k, False)`.  The `read_none`/`write_none` keys that
`_get_user_permissions` also emits are never consulted, so they carry no flag here. -/
structure Permissions where
  read_all : Bool
  read_limited : Bool
  write_all : Bool
  write_limited : Bool
  admin : Bool
  killswitch : Bool
deriving DecidableEq

/-- `AccessControl._get_user_permissions`: the static role table. -/
def get_user_permissions (user_id : String) : Permissions :=
  if user_id = "mikael" then
    { read_all := true, read_limited := false, write_all := true, write_limited := false,
      admin := true, killswitch := true }
  else if user_id = "dnd-genesis" then
    { read_all := true, read_limited := false, write_all := false, write_limited := true,
      admin := false, killswitch := false }
  else if user_id = "dnd-singularity" then
    { read_all := false, read_limited := true, write_all := false, write_limited := false,
      admin := false, killswitch := false }
  else
    { read_all := false, read_limited := false, write_all := false, write_limited := false,
      admin := false, killswitch := false }

/-- The value stored in `self.access_tokens[token]`. -/
structure TokenData where
  user_id : String
  expiry : Nat
  permissions : Permissions
deriving DecidableEq

/-- The authentication factors passed to `authenticate` (the `ip_address` entry is only
copied into the audit log, which is omitted). -/
structure AuthFactors where
  password : Option String
  yubikey_otp : Option String
deriving DecidableEq

/-- The state of `AccessControl`.  `yubikey_verify` models the duck-typed
`self.yubikey_manager.verify_otp(user_id, otp)` call: the constructor accepts any
object (every in-repo construction passes `None`, and `YubiKeyManager` itself defines
no `verify_otp` method), so the check is embedded as an abstract boolean function. -/
structure AccessControl where
  yubikey_verify : Option (String → String → Bool)
  access_tokens : List (String × TokenData)

/-- `AccessControl._verify_factors`: the YubiKey factor must pass when a manager is
configured and an OTP is presented; the password branch of the source is a placeholder
that checks nothing; afterwards the method returns True. -/
def verify_factors (ac : AccessControl) (user_id : String) (factors : AuthFactors) :
    Bool :=
  match ac.yubikey_verify, factors.yubikey_otp with
  | some f, some otp => f user_id otp
  | _, _ => true

/-- `AccessControl.authenticate(user_id, auth_factors)`: raise `ValueError` when a
configured factor fails, otherwise issue a fresh token valid for 30 minutes with the
static permissions of the user. -/
def authenticate (ac : AccessControl) (user_id : String) (factors : AuthFactors)
    (now : Nat) (freshToken : String) : Except String String × AccessControl :=
  if verify_factors ac user_id factors = false then
    (Except.error "Authentication failed", ac)
  else
    let td : TokenData :=
      { user_id := user_id, expiry := now + 30 * 60,
        permissions := get_user_permissions user_id }
    (Except.ok freshToken,
      { ac with access_tokens := insertKV ac.access_tokens freshToken td })

/-- `AccessControl.verify_token(token)`: unknown tokens yield `None`; expired tokens are
evicted and yield `None`; otherwise the token data is returned. -/
def verify_token (ac : AccessControl) (now : Nat) (token : String) :
    Option TokenData × AccessControl :=
  match lookupKV ac.access_tokens token with
  | none => (none, ac)
  | some td =>
    if now > td.expiry then
      (none, { ac with access_tokens := eraseKV ac.access_tokens token })
    else (some td, ac)

/-- `AccessControl.revoke_all_tokens()`: drop every token, returning the count. -/
def revoke_all_tokens (ac : AccessControl) : Nat × AccessControl :=
  (ac.access_tokens.length, { ac with access_tokens := [] })

/-- The state of `SecretVault`.  `stored_blob` is the persisted vault file: the source
stores `Fernet(PBKDF2(master_key)).encrypt(json.dumps(secrets))` and decrypts it back on
open; the encryption layer is a bijection between the serialized map and the blob and no
claim concerns the ciphertext bits, so the blob is modelled as the serialized map.
`override_key` is the `ORIGIN_KILLSWITCH_OVERRIDE` environment variable. -/
structure SecretVault where
  access_control : AccessControl
  secrets : List (String × String)
  is_open : Bool
  killswitch_activated : Bool
  stored_blob : Option (List (String × String))
  override_key : Option String
  now : Nat

/-- `SecretVault._save()`: fails when the vault is not open, otherwise writes the
serialized secret map to storage. -/
def vault_save (v : SecretVault) : Bool × SecretVault :=
  if v.is_open = false then (false, v)
  else (true, { v with stored_blob := some v.secrets })

/-- `SecretVault.open()` (named `open_vault`, `open` is a Lean keyword): an already-open
vault returns True immediately; then the kill-switch guard; then the persisted blob is
loaded, or a fresh vault initializes an empty map (the `_save()` it attempts still sees
`is_open == False` and therefore writes nothing). -/
def open_vault (v : SecretVault) : Bool × SecretVault :=
  if v.is_open then (true, v)
  else if v.killswitch_activated then (false, v)
  else
    match v.stored_blob with
    | some m =>
      let v2 : SecretVault := { v with secrets := m, is_open := true }
      (true, v2)
    | none => (true, { (vault_save { v with secrets := [] }).2 with is_open := true })

/-- Python `str.startswith`, as a prefix test on the underlying character lists (the
`String.startsWith` of core does not reduce inside the kernel). -/
def startsWith (s p : String) : Bool := p.data.isPrefixOf s.data

/-- `SecretVault._user_can_access_secret(user_id, secret_key)`: the hard-coded per-user
rule — mikael everything, dnd-genesis everything outside `killswitch.`, dnd-singularity
only `singularity.`, everyone else nothing. -/
def user_can_access_secret (user_id secret_key : String) : Bool :=
  if user_id = "mikael" then true
  else if user_id = "dnd-genesis" then !(startsWith secret_key "killswitch.")
  else if user_id = "dnd-singularity" then startsWith secret_key "singularity."
  else false

/-- `SecretVault.get_secret(access_token, secret_key)`. -/
def get_secret (v : SecretVault) (access_token secret_key : String) :
    Option String × SecretVault :=
  if v.is_open = false then (none, v)
  else if v.killswitch_activated then (none, v)
  else
    match verify_token v.access_control v.now access_token with
    | (none, ac2) => (none, { v with access_control := ac2 })
    | (some td, ac2) =>
      let v2 := { v with access_control := ac2 }
      if (td.permissions.read_all ||
          (td.permissions.read_limited &&
            user_can_access_secret td.user_id secret_key)) = false then (none, v2)
      else
        match lookupKV v2.secrets secret_key with
        | some value => (some value, v2)
        | none => (none, v2)

/-- `SecretVault.set_secret(access_token, secret_key, secret_value)`: on success the
in-memory map is updated and the vault is re-persisted; the save result is returned. -/
def set_secret (v : SecretVault) (access_token secret_key secret_value : String) :
    Bool × SecretVault :=
  if v.is_open = false then (false, v)
  else if v.killswitch_activated then (false, v)
  else
    match verify_token v.access_control v.now access_token with
    | (none, ac2) => (false, { v with access_control := ac2 })
    | (some td, ac2) =>
      let v2 := { v with access_control := ac2 }
      if (td.permissions.write_all ||
          (td.permissions.write_limited &&
            user_can_access_secret td.user_id secret_key)) = false then (false, v2)
      else
        vault_save { v2 with secrets := insertKV v2.secrets secret_key secret_value }

/-- `SecretVault.delete_secret(access_token, secret_key)`. -/
def delete_secret (v : SecretVault) (access_token secret_key : String) :
    Bool × SecretVault :=
  if v.is_open = false then (false, v)
  else if v.killswitch_activated then (false, v)
  else
    match verify_token v.access_control v.now access_token with
    | (none, ac2) => (false, { v with access_control := ac2 })
    | (some td, ac2) =>
      let v2 := { v with access_control := ac2 }
      if (td.permissions.write_all ||
          (td.permissions.write_limited &&
            user_can_access_secret td.user_id secret_key)) = false then (false, v2)
      else
        match lookupKV v2.secrets secret_key with
        | none => (false, v2)
        | some _ => vault_save { v2 with secrets := eraseKV v2.secrets secret_key }

/-- The trailing filter of `list_secrets`: `if prefix:` is false for both `None` and the
empty string. -/
def applyPrefixFilter (pre : Option String) (keys : List String) : List String :=
  match pre with
  | none => keys
  | some p => if p = "" then keys else keys.filter (fun k => startsWith k p)

/-- `SecretVault.list_secrets(access_token, prefix)`. -/
def list_secrets (v : SecretVault) (access_token : String) (pre : Option String) :
    List String × SecretVault :=
  if v.is_open = false then ([], v)
  else if v.killswitch_activated then ([], v)
  else
    match verify_token v.access_control v.now access_token with
    | (none, ac2) => ([], { v with access_control := ac2 })
    | (some td, ac2) =>
      let v2 := { v with access_control := ac2 }
      if td.permissions.read_all then
        (applyPrefixFilter pre (v2.secrets.map Prod.fst), v2)
      else if td.permissions.read_limited then
        (applyPrefixFilter pre ((v2.secrets.map Prod.fst).filter
          (fun k => user_can_access_secret td.user_id k)), v2)
      else ([], v2)

/-- `SecretVault.activate_killswitch(access_token)`: requires a verified token with the
`killswitch` permission; sets the flag and revokes every access token. -/
def activate_killswitch (v : SecretVault) (access_token : String) : Bool × SecretVault :=
  match verify_token v.access_control v.now access_token with
  | (none, ac2) => (false, { v with access_control := ac2 })
  | (some td, ac2) =>
    if td.permissions.killswitch = false then (false, { v with access_control := ac2 })
    else
      let v2 : SecretVault :=
        { v with access_control := (revoke_all_tokens ac2).2,
                 killswitch_activated := true }
      (true, v2)

/-- `SecretVault.deactivate_killswitch(master_override_key)`: compares against the
`ORIGIN_KILLSWITCH_OVERRIDE` environment variable; `if not expected_key` also rejects an
empty configured override. -/
def deactivate_killswitch (v : SecretVault) (master_override_key : String) :
    Bool × SecretVault :=
  match v.override_key with
  | none => (false, v)
  | some expected =>
    if expected = "" then (false, v)
    else if master_override_key = expected then
      (true, { v with killswitch_activated := false })
    else (false, v)

/-- `SecretVault.sync_to_kubernetes(access_token, namespace, prefix)` (the namespace
argument is only interpolated into log strings).  Requires the `admin` permission, lists
the syncable secrets, fails when there are none, reads each one via `get_secret` to
build the Kubernetes payload, and reports success. -/
def sync_to_kubernetes (v : SecretVault) (access_token : String) (pre : Option String) :
    Bool × SecretVault :=
  if v.is_open = false then (false, v)
  else if v.killswitch_activated then (false, v)
  else
    match verify_token v.access_control v.now access_token with
    | (none, ac2) => (false, { v with access_control := ac2 })
    | (some td, ac2) =>
      let v2 := { v with access_control := ac2 }
      if td.permissions.admin = false then (false, v2)
      else
        match list_secrets v2 access_token pre with
        | ([], v3) => (false, v3)
        | (keys, v3) =>
          (true, keys.foldl (fun st k => (get_secret st access_token k).2) v3)

end Origin

namespace Origin

/-- Inserting a key and looking it up returns the inserted value. -/
theorem lookupKV_insertKV_self {α : Type} (l : List (String × α)) (k : String) (v : α) :
    lookupKV (insertKV l k v) k = some v := by
  induction l with
  | nil => simp [insertKV, lookupKV]
  | cons p rest ih =>
    obtain ⟨k2, w⟩ := p
    by_cases h : k2 = k
    · simp [insertKV, h, lookupKV]
    · simp [insertKV, h, lookupKV, ih]

/-- C10.  Closed-vault fail-safe: when the vault is not open, `get_secret` returns
`None`, `set_secret` and `delete_secret` return `False`, and `list_secrets` returns the
empty list, each leaving the whole state — tokens, secret map, persisted blob — exactly
as it was, for every token and key (so nothing is consulted or touched). -/
theorem C10_closed_vault_failsafe (v : SecretVault) (tok k val : String)
    (pre : Option String) (hclosed : v.is_open = false) :
    get_secret v tok k = (none, v) ∧ set_secret v tok k val = (false, v) ∧
    delete_secret v tok k = (false, v) ∧ list_secrets v tok pre = ([], v) := by
  refine ⟨?_, ?_, ?_, ?_⟩ <;>
    simp [get_secret, set_secret, delete_secret, list_secrets, hclosed]

/-- The vault state produced by a successful `set_secret`. -/
def afterSet (v : SecretVault) (k val : String) : SecretVault :=
  { v with secrets := insertKV v.secrets k val,
           stored_blob := some (insertKV v.secrets k val) }

/-- C2.  Vault round-trip: with the vault open, the kill-switch inactive, and a live
unexpired token whose permissions pass both the write check and the read check for the
key, `set_secret` succeeds and an immediate `get_secret` on the resulting state returns
exactly the value just written. -/
theorem C2_set_get_roundtrip (v : SecretVault) (tok k val : String) (td : TokenData)
    (hopen : v.is_open = true) (hks : v.killswitch_activated = false)
    (htok : lookupKV v.access_control.access_tokens tok = some td)
    (hexp : ¬ v.now > td.expiry)
    (hw : (td.permissions.write_all ||
      (td.permissions.write_limited && user_can_access_secret td.user_id k)) = true)
    (hr : (td.permissions.read_all ||
      (td.permissions.read_limited && user_can_access_secret td.user_id k)) = true) :
    (set_secret v tok k val).1 = true ∧
    get_secret (set_secret v tok k val).2 tok k =
      (some val, (set_secret v tok k val).2) := by
  have hv : verify_token v.access_control v.now tok = (some td, v.access_control) := by
    simp [verify_token, htok, hexp]
  have hset : set_secret v tok k val = (true, afterSet v k val) := by
    simp [set_secret, hopen, hks, hv, hw, vault_save, afterSet]
  have hget : get_secret (afterSet v k val) tok k = (some val, afterSet v k val) := by
    simp [get_secret, afterSet, hopen, hks, hv, hr, lookupKV_insertKV_self]
  exact ⟨by rw [hset], by rw [hset]; exact hget⟩

end Origin

namespace Origin

/-- C7.  Namespace ownership: a token with only the limited read permission is denied
(`None`) on every key the per-user rule `_user_can_access_secret` refuses, and for
allowed keys reads exactly the vault map; likewise limited writes; `read_all` and
`write_all` bypass the per-user rule for every key.  The limited user of the role table,
dnd-singularity, is allowed exactly the keys with namespace prefix `singularity.`. -/
theorem C7_namespace_ownership (v : SecretVault) (tok k val : String) (td : TokenData)
    (hopen : v.is_open = true) (hks : v.killswitch_activated = false)
    (htok : lookupKV v.access_control.access_tokens tok = some td)
    (hexp : ¬ v.now > td.expiry) :
    (td.permissions.read_all = false → user_can_access_secret td.user_id k = false →
      (get_secret v tok k).1 = none) ∧
    (td.permissions.write_all = false → user_can_access_secret td.user_id k = false →
      (set_secret v tok k val).1 = false ∧ (delete_secret v tok k).1 = false) ∧
    (td.permissions.read_limited = true → user_can_access_secret td.user_id k = true →
      (get_secret v tok k).1 = lookupKV v.secrets k) ∧
    (td.permissions.write_limited = true → user_can_access_secret td.user_id k = true →
      (set_secret v tok k val).1 = true) ∧
    (td.permissions.read_all = true → (get_secret v tok k).1 = lookupKV v.secrets k) ∧
    (td.permissions.write_all = true → (set_secret v tok k val).1 = true) ∧
    (user_can_access_secret "dnd-singularity" k = startsWith k "singularity.") := by
  have hv : verify_token v.access_control v.now tok = (some td, v.access_control) := by
    simp [verify_token, htok, hexp]
  refine ⟨?_, ?_, ?_, ?_, ?_, ?_, ?_⟩
  · intro h1 h2
    simp [get_secret, hopen, hks, hv, h1, h2]
  · intro h1 h2
    constructor
    · simp [set_secret, hopen, hks, hv, h1, h2]
    · simp [delete_secret, hopen, hks, hv, h1, h2]
  · intro h1 h2
    have hcr : (td.permissions.read_all ||
        (td.permissions.read_limited && user_can_access_secret td.user_id k)) = true := by
      simp [h1, h2]
    simp only [get_secret, hopen, hks, hv]
    simp [hcr]
    cases hl : lookupKV v.secrets k <;> simp [hl]
  · intro h1 h2
    have hcw : (td.permissions.write_all ||
        (td.permissions.write_limited && user_can_access_secret td.user_id k)) = true := by
      simp [h1, h2]
    simp [set_secret, hopen, hks, hv, hcw, vault_save]
  · intro h1
    simp only [get_secret, hopen, hks, hv]
    simp [h1]
    cases hl : lookupKV v.secrets k <;> simp [hl]
  · intro h1
    simp [set_secret, hopen, hks, hv, h1, vault_save]
  · simp [user_can_access_secret]

/-- C8.  Authentication factor conjunction: `authenticate` issues the fresh token if
and only if `_verify_factors` passes, which holds exactly when the configured YubiKey
factor (when a manager is configured and an OTP is presented) accepts — the password
branch of the source checks nothing; on a factor failure a `ValueError` is raised and
the token table is left unchanged, on success the fresh token is registered with a
30-minute expiry and the static permissions of the user. -/
theorem C8_factor_conjunction (ac : AccessControl) (user : String)
    (factors : AuthFactors) (now : Nat) (fresh : String) :
    ((authenticate ac user factors now fresh).1 = Except.ok fresh ↔
      verify_factors ac user factors = true) ∧
    (verify_factors ac user factors = true ↔
      (∀ f otp, ac.yubikey_verify = some f → factors.yubikey_otp = some otp →
        f user otp = true)) ∧
    (verify_factors ac user factors = false →
      (authenticate ac user factors now fresh).1 =
        Except.error "Authentication failed" ∧
      ((authenticate ac user factors now fresh).2).access_tokens =
        ac.access_tokens) ∧
    (verify_factors ac user factors = true →
      (authenticate ac user factors now fresh).2.access_tokens =
        insertKV ac.access_tokens fresh
          { user_id := user, expiry := now + 30 * 60,
            permissions := get_user_permissions user }) := by
  refine ⟨?_, ?_, ?_, ?_⟩
  · by_cases h : verify_factors ac user factors = false
    · simp [authenticate, h]
    · simp only [authenticate, if_neg h]
      simp at h
      simp [h]
  · constructor
    · intro h f otp hf hotp
      rw [verify_factors, hf, hotp] at h
      exact h
    · intro h
      rw [verify_factors]
      cases hf : ac.yubikey_verify with
      | none => rfl
      | some f =>
        cases hotp : factors.yubikey_otp with
        | none => rfl
        | some otp => exact h f otp hf hotp
  · intro h
    simp [authenticate, h]
  · intro h
    simp [authenticate, h]

end Origin

namespace Origin

/-- The vault state after a successful kill-switch activation. -/
def activatedState (v : SecretVault) (ac2 : AccessControl) : SecretVault :=
  { v with access_control := (revoke_all_tokens ac2).2, killswitch_activated := true }

/-- C1 (amended).  Kill-switch lifecycle: a successful `activate_killswitch` requires a
verified token carrying the `killswitch` permission, revokes every access token and
sets the flag; while the flag is set, `get_secret`, `set_secret`, `delete_secret`,
`list_secrets` and `sync_to_kubernetes` fail for every token with the state unchanged,
and a closed vault cannot be opened — however `open` on an already-open vault returns
`True` (see the counterexample), which is the one deviation from the claim as stated;
`deactivate_killswitch` succeeds exactly when the presented key equals the configured
non-empty override (failing for a wrong key and when none is configured), and success
clears the flag changing nothing else, restoring normal operation. -/
theorem C1_killswitch_lifecycle (v v1 : SecretVault) (tok tok2 k val mk : String)
    (pre : Option String)
    (hact : activate_killswitch v tok = (true, v1)) :
    (∃ td, (verify_token v.access_control v.now tok).1 = some td ∧
      td.permissions.killswitch = true) ∧
    v1.access_control.access_tokens = [] ∧
    v1.killswitch_activated = true ∧
    (∀ w : SecretVault, w.killswitch_activated = true →
      get_secret w tok2 k = (none, w) ∧
      set_secret w tok2 k val = (false, w) ∧
      delete_secret w tok2 k = (false, w) ∧
      list_secrets w tok2 pre = ([], w) ∧
      sync_to_kubernetes w tok2 pre = (false, w) ∧
      (w.is_open = false → open_vault w = (false, w)) ∧
      ((deactivate_killswitch w mk).1 = true ↔
        (∃ ek, w.override_key = some ek ∧ ek ≠ "" ∧ mk = ek)) ∧
      ((deactivate_killswitch w mk).1 = true →
        (deactivate_killswitch w mk).2 = { w with killswitch_activated := false })) := by
  rcases hverify : verify_token v.access_control v.now tok with ⟨otd, ac2⟩
  have hmain : (∃ td, otd = some td ∧ td.permissions.killswitch = true) ∧
      v1.access_control.access_tokens = [] ∧ v1.killswitch_activated = true := by
    rcases otd with _ | td
    · have heq : activate_killswitch v tok = (false, { v with access_control := ac2 }) := by
        rw [activate_killswitch, hverify]
      rw [heq] at hact
      simp at hact
    · by_cases hperm : td.permissions.killswitch = false
      · have heq : activate_killswitch v tok =
            (false, { v with access_control := ac2 }) := by
          rw [activate_killswitch, hverify]
          simp [hperm]
        rw [heq] at hact
        simp at hact
      · have heq : activate_killswitch v tok = (true, activatedState v ac2) := by
          rw [activate_killswitch, hverify]
          simp [hperm, activatedState]
        rw [heq] at hact
        simp only [Prod.mk.injEq, true_and] at hact
        subst hact
        refine ⟨⟨td, rfl, by simpa using hperm⟩, rfl, rfl⟩
  refine ⟨?_, hmain.2.1, hmain.2.2, ?_⟩
  · obtain ⟨td, htd, hp⟩ := hmain.1
    exact ⟨td, by simp [htd], hp⟩
  · intro w hw
    refine ⟨?_, ?_, ?_, ?_, ?_, ?_, ?_, ?_⟩
    · by_cases h : w.is_open = false <;> simp [get_secret, h, hw]
    · by_cases h : w.is_open = false <;> simp [set_secret, h, hw]
    · by_cases h : w.is_open = false <;> simp [delete_secret, h, hw]
    · by_cases h : w.is_open = false <;> simp [list_secrets, h, hw]
    · by_cases h : w.is_open = false <;> simp [sync_to_kubernetes, h, hw]
    · intro h
      simp [open_vault, h, hw]
    · cases hok : w.override_key with
      | none => simp [deactivate_killswitch, hok]
      | some ek =>
        by_cases he : ek = ""
        · simp [deactivate_killswitch, hok, he]
        · by_cases hm : mk = ek
          · simp [deactivate_killswitch, hok, he, hm]
          · simp [deactivate_killswitch, hok, he, hm]
    · intro hd
      rcases hok : w.override_key with _ | ek
      · rw [deactivate_killswitch, hok] at hd
        simp at hd
      · rw [deactivate_killswitch, hok] at hd ⊢
        by_cases he : ek = ""
        · simp [he] at hd
        · by_cases hm : mk = ek
          · simp [he, hm, ← hok]
          · simp [he, hm] at hd

end Origin

namespace Origin

/-- A token for mikael (read/write/admin/killswitch), expiring at time 1800. -/
def tokenMikael : TokenData :=
  { user_id := "mikael", expiry := 1800, permissions := get_user_permissions "mikael" }

/-- A token for the limited user dnd-singularity (read_limited only). -/
def tokenSingularity : TokenData :=
  { user_id := "dnd-singularity", expiry := 1800,
    permissions := get_user_permissions "dnd-singularity" }

/-- The access control of the example vault: live tokens for mikael and
dnd-singularity, no YubiKey manager. -/
def acEx : AccessControl :=
  { yubikey_verify := none,
    access_tokens := [("tokm", tokenMikael), ("toks", tokenSingularity)] }

/-- An open vault at time 0 holding two secrets, the kill-switch inactive, and an
override key configured. -/
def vaultEx : SecretVault :=
  { access_control := acEx,
    secrets := [("singularity.key", "s3cr3t"), ("other.key", "hidden")],
    is_open := true, killswitch_activated := false,
    stored_blob := some [("singularity.key", "s3cr3t"), ("other.key", "hidden")],
    override_key := some "override-key", now := 0 }

/-- C1 counterexample: from a concrete open vault, `activate_killswitch` with a
killswitch-permitted token succeeds and sets the flag, yet the subsequent vault
operation `open` returns `True` — it short-circuits on an already-open vault before the
kill-switch guard — refuting that every subsequent vault operation, `open` included,
fails while the kill-switch is active. -/
theorem C1_open_succeeds_after_activation :
    (activate_killswitch vaultEx "tokm").1 = true ∧
    (activate_killswitch vaultEx "tokm").2.killswitch_activated = true ∧
    (open_vault (activate_killswitch vaultEx "tokm").2).1 = true :=
  ⟨rfl, rfl, rfl⟩

/-- C1 witness: on the concrete vault, activation leaves no access token, `get_secret`
with the previously-valid token fails, and deactivation with the configured override
succeeds. -/
theorem C1_killswitch_lifecycle_witness :
    (activate_killswitch vaultEx "tokm").2.access_control.access_tokens = [] ∧
    get_secret (activate_killswitch vaultEx "tokm").2 "tokm" "singularity.key" =
      (none, (activate_killswitch vaultEx "tokm").2) ∧
    (deactivate_killswitch (activate_killswitch vaultEx "tokm").2 "override-key").1
      = true := by
  have h := C1_killswitch_lifecycle vaultEx (activate_killswitch vaultEx "tokm").2
    "tokm" "tokm" "singularity.key" "v" "override-key" none rfl
  have hops := h.2.2.2 (activate_killswitch vaultEx "tokm").2 h.2.2.1
  exact ⟨h.2.1, hops.1, hops.2.2.2.2.2.2.1.mpr ⟨"override-key", rfl, by decide, rfl⟩⟩

/-- C2 witness: mikael writes `github.token` and reads the same value back. -/
theorem C2_set_get_roundtrip_witness :
    (set_secret vaultEx "tokm" "github.token" "github-pat").1 = true ∧
    get_secret (set_secret vaultEx "tokm" "github.token" "github-pat").2 "tokm"
        "github.token" =
      (some "github-pat", (set_secret vaultEx "tokm" "github.token" "github-pat").2) :=
  C2_set_get_roundtrip vaultEx "tokm" "github.token" "github-pat" tokenMikael rfl rfl rfl
    (by decide) (by decide) (by decide)

/-- C7 witness, the scenario of the claim with the limited user of the code:
dnd-singularity reads `singularity.key` successfully and is denied on `other.key`. -/
theorem C7_namespace_ownership_witness :
    (get_secret vaultEx "toks" "singularity.key").1 = some "s3cr3t" ∧
    (get_secret vaultEx "toks" "other.key").1 = none ∧
    user_can_access_secret "dnd-singularity" "singularity.key" = true ∧
    user_can_access_secret "dnd-singularity" "other.key" = false := by
  have h1 := C7_namespace_ownership vaultEx "toks" "singularity.key" "x"
    tokenSingularity rfl rfl rfl (by decide)
  have h2 := C7_namespace_ownership vaultEx "toks" "other.key" "x"
    tokenSingularity rfl rfl rfl (by decide)
  refine ⟨?_, ?_, by decide, by decide⟩
  · have h3 := h1.2.2.1 rfl (by decide)
    rw [h3]
    rfl
  · exact h2.1 rfl (by decide)

/-- An access control whose YubiKey manager accepts exactly the OTP 424242 for mikael. -/
def acFactors : AccessControl :=
  { yubikey_verify := some (fun u otp => u = "mikael" && otp = "424242"),
    access_tokens := [] }

/-- C8 witness: with a YubiKey manager that accepts OTP 424242 for mikael,
authentication succeeds on the good OTP and fails with no token issued on a bad one. -/
theorem C8_factor_conjunction_witness :
    (authenticate acFactors "mikael" ⟨some "pw", some "424242"⟩ 0 "t1").1 =
      Except.ok "t1" ∧
    (authenticate acFactors "mikael" ⟨some "pw", some "000000"⟩ 0 "t1").1 =
      Except.error "Authentication failed" ∧
    (authenticate acFactors "mikael" ⟨some "pw", some "000000"⟩ 0 "t1").2.access_tokens =
      acFactors.access_tokens := by
  have h1 := C8_factor_conjunction acFactors "mikael" ⟨some "pw", some "424242"⟩ 0 "t1"
  have h2 := C8_factor_conjunction acFactors "mikael" ⟨some "pw", some "000000"⟩ 0 "t1"
  exact ⟨h1.1.mpr rfl, (h2.2.2.1 rfl).1, (h2.2.2.1 rfl).2⟩

/-- A closed vault still holding in-memory state, for the fail-safe witness. -/
def vaultClosed : SecretVault :=
  { access_control := acEx,
    secrets := [("a.b", "c")], is_open := false, killswitch_activated := false,
    stored_blob := some [("a.b", "c")], override_key := none, now := 0 }

/-- C10 witness: all four operations fail without touching a concrete closed vault. -/
theorem C10_closed_vault_failsafe_witness :
    get_secret vaultClosed "tokm" "a.b" = (none, vaultClosed) ∧
    set_secret vaultClosed "tokm" "a.b" "v2" = (false, vaultClosed) ∧
    delete_secret vaultClosed "tokm" "a.b" = (false, vaultClosed) ∧
    list_secrets vaultClosed "tokm" none = ([], vaultClosed) :=
  C10_closed_vault_failsafe vaultClosed "tokm" "a.b" "v2" none rfl

/-! JSON documents and `json.dumps`.

Governance record contents are Python dicts serialized with `json.dumps` (default
separators, `ensure_ascii`), optionally with `sort_keys=True`.  Objects keep insertion
order, mirroring dicts. -/

/-- A JSON value. -/
inductive Json where
  | null : Json
  | bool (b : Bool) : Json
  | num (n : Int) : Json
  | str (s : String) : Json
  | arr (items : List Json) : Json
  | obj (entries : List (String × Json)) : Json

/-- Decimal digits, most significant first (fuel-recursive so it reduces by `rfl`). -/
def natDigitsAux : Nat → Nat → List Nat
  | 0, _ => []
  | fuel + 1, n => if n < 10 then [n] else natDigitsAux fuel (n / 10) ++ [n % 10]

/-- `str(n)` for a natural number. -/
def natToString (n : Nat) : String :=
  String.mk ((natDigitsAux (n + 1) n).map (fun d => Char.ofNat (48 + d)))

/-- `str(n)` for an integer. -/
def intToString (n : Int) : String :=
  if n < 0 then "-" ++ natToString n.natAbs else natToString n.natAbs

/-- The four hex digits of a 16-bit value, as in a JSON unicode escape. -/
def hex4 (n : Nat) : List Char :=
  [hexDigit (n >>> 12 % 16), hexDigit (n >>> 8 % 16), hexDigit (n >>> 4 % 16),
   hexDigit (n % 16)]

/-- `json.dumps` string escaping with `ensure_ascii`: quote and backslash escaped, the
usual short escapes, all other characters outside printable ASCII as unicode escapes
(surrogate pairs beyond the basic plane). -/
def escapeChar (c : Char) : List Char :=
  if c = '"' then ['\\', '"']
  else if c = '\\' then ['\\', '\\']
  else if c.toNat = 10 then ['\\', 'n']
  else if c.toNat = 9 then ['\\', 't']
  else if c.toNat = 13 then ['\\', 'r']
  else if c.toNat = 8 then ['\\', 'b']
  else if c.toNat = 12 then ['\\', 'f']
  else if c.toNat < 32 ∨ c.toNat > 126 then
    if c.toNat < 65536 then '\\' :: 'u' :: hex4 c.toNat
    else
      ('\\' :: 'u' :: hex4 (55296 + (c.toNat - 65536) / 1024)) ++
      ('\\' :: 'u' :: hex4 (56320 + (c.toNat - 65536) % 1024))
  else [c]

/-- A JSON string literal. -/
def quoteJson (s : String) : String :=
  "\"" ++ String.mk (s.data.flatMap escapeChar) ++ "\""

/-- Join with the default `json.dumps` item separator. -/
def commaJoin : List String → String
  | [] => ""
  | [x] => x
  | x :: rest => x ++ ", " ++ commaJoin rest

mutual

/-- `json.dumps(j)` with the default separators and insertion-ordered keys. -/
def jsonDumps : Json → String
  | Json.null => "null"
  | Json.bool b => if b then "true" else "false"
  | Json.num n => intToString n
  | Json.str s => quoteJson s
  | Json.arr items => "[" ++ commaJoin (jsonDumpsList items) ++ "]"
  | Json.obj kvs => "\x7b" ++ commaJoin (jsonDumpsEntries kvs) ++ "\x7d"

/-- The serialized items of an array. -/
def jsonDumpsList : List Json → List String
  | [] => []
  | j :: rest => jsonDumps j :: jsonDumpsList rest

/-- The serialized `"key": value` entries of an object. -/
def jsonDumpsEntries : List (String × Json) → List String
  | [] => []
  | (k, j) :: rest => (quoteJson k ++ ": " ++ jsonDumps j) :: jsonDumpsEntries rest

end

/-- Code-point order on strings, the order `sorted` uses on `str`. -/
def charListLe : List Char → List Char → Bool
  | [], _ => true
  | _ :: _, [] => false
  | c1 :: r1, c2 :: r2 =>
    if c1.toNat < c2.toNat then true
    else if c2.toNat < c1.toNat then false
    else charListLe r1 r2

/-- Code-point comparison of two keys. -/
def strLe (a b : String) : Bool := charListLe a.data b.data

/-- Insert an entry into a key-sorted entry list. -/
def insortKey (e : String × Json) : List (String × Json) → List (String × Json)
  | [] => [e]
  | f :: rest => if strLe e.1 f.1 then e :: f :: rest else f :: insortKey e rest

/-- Sort entries by key. -/
def sortByKey : List (String × Json) → List (String × Json)
  | [] => []
  | e :: rest => insortKey e (sortByKey rest)

mutual

/-- Recursively sort every object of a JSON value by key, so that
`jsonDumps (sortJson j)` is `json.dumps(j, sort_keys=True)`. -/
def sortJson : Json → Json
  | Json.null => Json.null
  | Json.bool b => Json.bool b
  | Json.num n => Json.num n
  | Json.str s => Json.str s
  | Json.arr items => Json.arr (sortJsonList items)
  | Json.obj kvs => Json.obj (sortByKey (sortJsonEntries kvs))

/-- `sortJson` on every array item. -/
def sortJsonList : List Json → List Json
  | [] => []
  | j :: rest => sortJson j :: sortJsonList rest

/-- `sortJson` on every entry value. -/
def sortJsonEntries : List (String × Json) → List (String × Json)
  | [] => []
  | (k, j) :: rest => (k, sortJson j) :: sortJsonEntries rest

end

/-- `json.dumps(j, sort_keys=True)`: the canonical key-sorted serialization. -/
def canonicalDumps (j : Json) : String := jsonDumps (sortJson j)

/-- The first `n` characters of a string (Python slicing `[:n]`). -/
def strTake (n : Nat) (s : String) : String := String.mk (s.data.take n)

/-! The ImmuDB manager (src/database/immutable_db_manager.py).  `store` maps the ImmuDB
key `record:<id>` to the stored record document; `available` models backend
connectivity: when it is false the client calls raise, and `store_record`/`get_record`
catch the exception and return `None`. -/

/-- A stored governance record document, with the fields of lines 159-167. -/
structure GovRecord where
  record_id : String
  record_type : String
  authority : String
  timestamp : Nat
  content : Json
  content_hash : String

/-- The state of `ImmuDBManager`. -/
structure ImmuDBManager where
  available : Bool
  store : List (String × GovRecord)

/-- `ImmuDBManager.store_record(record_type, authority, content)`: build the record id
from the type, the millisecond timestamp and the first eight hex digits of the SHA-256
of the plain serialization; hash the canonical (key-sorted) serialization into
`content_hash`; store under `record:<id>`. -/
def store_record (m : ImmuDBManager) (record_type authority : String) (content : Json)
    (now : Nat) : Option String × ImmuDBManager :=
  if m.available = false then (none, m)
  else
    let record_id := record_type ++ "-" ++ natToString now ++ "-" ++
      strTake 8 (sha256Hex (strBytes (jsonDumps content)))
    let record : GovRecord :=
      { record_id := record_id, record_type := record_type, authority := authority,
        timestamp := now, content := content,
        content_hash := sha256Hex (strBytes (canonicalDumps content)) }
    (some record_id, { m with store := insertKV m.store ("record:" ++ record_id) record })

/-- `ImmuDBManager.get_record(record_id)`: fetch, recompute the canonical content hash,
and refuse to return a record whose hash does not match. -/
def get_record (m : ImmuDBManager) (record_id : String) : Option GovRecord :=
  if m.available = false then none
  else
    match lookupKV m.store ("record:" ++ record_id) with
    | none => none
    | some record =>
      if sha256Hex (strBytes (canonicalDumps record.content)) ≠ record.content_hash then
        none
      else some record

/-! The event store (src/database/event_store_manager.py). -/

/-- An event document (`eventId`, `eventType`, `data`, `metadata`). -/
structure ESEvent where
  eventId : String
  eventType : String
  data : Json
  metadata : List (String × Json)

/-- The in-memory `EventStoreClient`: a map from stream name to its event list. -/
structure EventStoreClient where
  events : List (String × List ESEvent)

/-- `EventStoreClient.append_to_stream(stream_name, events, expected_version)`: the
stream entry is created first; a supplied expected version that differs from the current
stream length raises (the `.error` result) after that mutation; otherwise the events are
appended and the last index is returned. -/
def append_to_stream (c : EventStoreClient) (stream_name : String)
    (new_events : List ESEvent) (expected_version : Option Nat) :
    Except String Nat × EventStoreClient :=
  let c1 := if (lookupKV c.events stream_name).isNone then
      { events := insertKV c.events stream_name [] } else c
  let cur := (lookupKV c1.events stream_name).getD []
  match expected_version with
  | some v =>
    if v ≠ cur.length then
      (Except.error ("Concurrency error: expected version " ++ natToString v ++
        " but found " ++ natToString cur.length), c1)
    else
      (Except.ok ((cur ++ new_events).length - 1),
        { events := insertKV c1.events stream_name (cur ++ new_events) })
  | none =>
    (Except.ok ((cur ++ new_events).length - 1),
      { events := insertKV c1.events stream_name (cur ++ new_events) })

/-- `EventStoreClient.read_stream_events_forward(stream_name, start, count)`. -/
def read_stream_events_forward (c : EventStoreClient) (stream_name : String)
    (start count : Nat) : List ESEvent :=
  match lookupKV c.events stream_name with
  | none => []
  | some evs => (evs.drop start).take count

/-- The state of `EventStoreManager`. -/
structure EventStoreManager where
  client : EventStoreClient

/-- `EventStoreManager.append_event(stream_id, event_type, event_data, metadata,
expected_version)`: build the event document (UUID and timestamp are explicit
parameters) and append it; a client exception is re-raised. -/
def append_event (m : EventStoreManager) (stream_id event_type : String)
    (event_data : Json) (metadata : Option (List (String × Json)))
    (expected_version : Option Nat) (event_id now_iso : String) :
    Except String String × EventStoreManager :=
  let event : ESEvent :=
    { eventId := event_id, eventType := event_type, data := event_data,
      metadata := metadata.getD
        [("timestamp", Json.str now_iso), ("source", Json.str "governance_system")] }
  match append_to_stream m.client stream_id [event] expected_version with
  | (Except.ok _, c2) => (Except.ok event_id, { client := c2 })
  | (Except.error e, c2) => (Except.error e, { client := c2 })

/-- `EventStoreManager.read_stream(stream_id, start, count)`. -/
def read_stream (m : EventStoreManager) (stream_id : String) (start count : Nat) :
    List ESEvent :=
  read_stream_events_forward m.client stream_id start count

/-! The triple-store coordinator (src/database/triple_store_manager.py).  The
PostgreSQL manager is the in-file mock: `store_record` returns a fresh UUID and stores
nothing, `get_record` returns `None`, `verify_database_consistency` returns `True`. -/

/-- The placeholder `PostgreSQLManager` of the source. -/
structure PostgreSQLManager where
  connected : Bool

/-- The state of `TripleStoreManager`. -/
structure TripleStoreManager where
  immudb_manager : ImmuDBManager
  event_store_manager : EventStoreManager
  pg_manager : PostgreSQLManager
  verify_on_write : Bool
  cross_verify_count : Nat
  inconsistency_count : Nat

/-- `str.capitalize()`: first character upper-cased, the rest lower-cased. -/
def capitalize (s : String) : String :=
  match s.data with
  | [] => ""
  | c :: rest => String.mk (c.toUpper :: rest.map Char.toLower)

/-- `TripleStoreManager._map_record_type_to_event_type`. -/
def map_record_type_to_event_type (record_type : String) : String :=
  match lookupKV
      [("proposal", "ProposalSubmitted"), ("approval", "ProposalApproved"),
       ("rejection", "ProposalRejected"), ("comment", "CommentAdded"),
       ("revision", "ProposalRevised")] record_type with
  | some e => e
  | none => capitalize record_type ++ "Recorded"

/-- `TripleStoreManager._cross_verify_record(record_id)`: bump the counter; the record
must exist in ImmuDB and its event stream must be non-empty, else the check fails (a
missing stream also bumps the inconsistency counter). -/
def cross_verify_record (t : TripleStoreManager) (record_id : String) :
    Bool × TripleStoreManager :=
  let t1 := { t with cross_verify_count := t.cross_verify_count + 1 }
  match get_record t1.immudb_manager record_id with
  | none => (false, t1)
  | some _ =>
    if (read_stream t1.event_store_manager ("record-" ++ record_id) 0 100).isEmpty then
      (false, { t1 with inconsistency_count := t1.inconsistency_count + 1 })
    else (true, t1)

/-- `TripleStoreManager.store_governance_record(record_type, authority, content)`:
ImmuDB first — on failure abort with `None` and no further writes; then append the
mapped event to `record-<id>` (an exception there is caught by the outer handler, also
yielding `None`); the PostgreSQL mock write stores nothing; optionally cross-verify. -/
def store_governance_record (t : TripleStoreManager) (record_type authority : String)
    (content : Json) (now : Nat) (event_id now_iso : String) :
    Option String × TripleStoreManager :=
  match store_record t.immudb_manager record_type authority content now with
  | (none, im2) => (none, { t with immudb_manager := im2 })
  | (some record_id, im2) =>
    let t2 := { t with immudb_manager := im2 }
    let meta : List (String × Json) :=
      [("authority", Json.str authority), ("record_id", Json.str record_id),
       ("storage_time", Json.num now)]
    match append_event t2.event_store_manager ("record-" ++ record_id)
        (map_record_type_to_event_type record_type) content (some meta) none
        event_id now_iso with
    | (Except.error _, es2) => (none, { t2 with event_store_manager := es2 })
    | (Except.ok _, es2) =>
      let t3 := { t2 with event_store_manager := es2 }
      if t3.verify_on_write then
        let r := cross_verify_record t3 record_id
        (some record_id, r.2)
      else (some record_id, t3)

/-- `TripleStoreManager.get_governance_record(record_id, verify)`: read the
(hash-verified) record from ImmuDB; when verifying, run the cross-verification, whose
failure is only logged and never withholds the record. -/
def get_governance_record (t : TripleStoreManager) (record_id : String)
    (verify : Bool) : Option GovRecord × TripleStoreManager :=
  match get_record t.immudb_manager record_id with
  | none => (none, t)
  | some record =>
    if verify then (some record, (cross_verify_record t record_id).2)
    else (some record, t)

end Origin

namespace Origin

/-- Inserting under one key leaves the other keys alone. -/
theorem lookupKV_insertKV_ne {α : Type} (l : List (String × α)) (k k2 : String) (v : α)
    (h : k ≠ k2) : lookupKV (insertKV l k v) k2 = lookupKV l k2 := by
  induction l with
  | nil => simp [insertKV, lookupKV, h]
  | cons p rest ih =>
    obtain ⟨k3, w⟩ := p
    by_cases h3 : k3 = k
    · subst h3
      simp [insertKV, lookupKV, h]
    · simp [insertKV, h3, lookupKV, ih]

/-- C4.  Record content integrity: a record persisted by `store_record` carries
`content_hash` equal to the SHA-256 of the canonical (key-sorted) JSON serialization of
its content; `get_record` recomputes that hash and any record it returns satisfies it; a
stored record whose hash no longer matches is never returned (`None`, the hard integrity
failure); and this is distinct from soft cross-store drift — `get_governance_record`
with verification on still returns the hash-verified authoritative record even when the
cross-store check fails. -/
theorem C4_record_content_integrity (m : ImmuDBManager) (rt a : String)
    (content : Json) (now : Nat) (rid : String) (m2 : ImmuDBManager)
    (hstore : store_record m rt a content now = (some rid, m2)) :
    (∃ r, lookupKV m2.store ("record:" ++ rid) = some r ∧ r.content = content ∧
      r.content_hash = sha256Hex (strBytes (canonicalDumps content))) ∧
    (∀ (m3 : ImmuDBManager) (r : GovRecord), get_record m3 rid = some r →
      sha256Hex (strBytes (canonicalDumps r.content)) = r.content_hash) ∧
    (∀ (m3 : ImmuDBManager) (r : GovRecord),
      lookupKV m3.store ("record:" ++ rid) = some r →
      sha256Hex (strBytes (canonicalDumps r.content)) ≠ r.content_hash →
      get_record m3 rid = none) ∧
    (∀ (ts : TripleStoreManager) (r : GovRecord),
      get_record ts.immudb_manager rid = some r →
      (get_governance_record ts rid true).1 = some r) := by
  refine ⟨?_, ?_, ?_, ?_⟩
  · by_cases hav : m.available = false
    · rw [store_record, if_pos hav] at hstore
      exact absurd hstore (by simp)
    · rw [store_record, if_neg hav] at hstore
      simp only [Prod.mk.injEq, Option.some.injEq] at hstore
      obtain ⟨hrid, hm2⟩ := hstore
      subst hrid
      subst hm2
      exact ⟨_, lookupKV_insertKV_self _ _ _, rfl, rfl⟩
  · intro m3 r hr
    rw [get_record] at hr
    by_cases hav : m3.available = false
    · rw [if_pos hav] at hr
      exact absurd hr (by simp)
    · rw [if_neg hav] at hr
      rcases hl : lookupKV m3.store ("record:" ++ rid) with _ | rec
      · simp only [hl] at hr
        exact absurd hr (by simp)
      · simp only [hl] at hr
        by_cases hh : sha256Hex (strBytes (canonicalDumps rec.content)) ≠ rec.content_hash
        · rw [if_pos hh] at hr
          exact absurd hr (by simp)
        · rw [if_neg hh] at hr
          simp only [Option.some.injEq] at hr
          subst hr
          simpa using hh
  · intro m3 r hl hh
    by_cases hav : m3.available = false
    · simp [get_record, hav]
    · simp [get_record, hav, hl, hh]
  · intro ts r hr
    simp [get_governance_record, hr]

/-- C5.  Write ordering and abort: `store_governance_record` writes to the
tamper-evident store first, and when that first write fails the call returns `None`
with the whole coordinator state unchanged — in particular no event is appended to the
event stream and the query-mirror backend is untouched. -/
theorem C5_immudb_first_write_abort (t : TripleStoreManager) (rt a : String)
    (content : Json) (now : Nat) (eid niso : String)
    (hfail : (store_record t.immudb_manager rt a content now).1 = none) :
    store_governance_record t rt a content now eid niso = (none, t) ∧
    (store_governance_record t rt a content now eid niso).2.event_store_manager =
      t.event_store_manager ∧
    (store_governance_record t rt a content now eid niso).2.pg_manager =
      t.pg_manager := by
  have hav : t.immudb_manager.available = false := by
    by_contra hav
    rw [store_record, if_neg hav] at hfail
    simp at hfail
  have hsr : store_record t.immudb_manager rt a content now =
      (none, t.immudb_manager) := by
    rw [store_record, if_pos hav]
  have hmain : store_governance_record t rt a content now eid niso = (none, t) := by
    simp [store_governance_record, hsr]
  exact ⟨hmain, by rw [hmain], by rw [hmain]⟩

/-- C6.  Event-log optimistic concurrency: an append supplying an expected version
different from the stream length fails (the raised conflict error) and leaves every
stream read unchanged — never a silent overwrite — and the failure propagates through
`append_event`; an append supplying the matching expected version, or omitting it,
appends the events at the end of the stream and succeeds (`append_event` returning the
event id). -/
theorem C6_event_optimistic_concurrency (c : EventStoreClient) (stream : String)
    (evs : List ESEvent) (v : Nat) (et : String) (dat : Json)
    (md : Option (List (String × Json))) (eid niso : String) :
    (v ≠ ((lookupKV c.events stream).getD []).length →
      (append_to_stream c stream evs (some v)).1.isOk = false ∧
      (∀ s2, (lookupKV (append_to_stream c stream evs (some v)).2.events s2).getD [] =
        (lookupKV c.events s2).getD []) ∧
      (append_event ⟨c⟩ stream et dat md (some v) eid niso).1.isOk = false) ∧
    (v = ((lookupKV c.events stream).getD []).length →
      (append_to_stream c stream evs (some v)).1 =
        Except.ok (((lookupKV c.events stream).getD [] ++ evs).length - 1) ∧
      (lookupKV (append_to_stream c stream evs (some v)).2.events stream).getD [] =
        (lookupKV c.events stream).getD [] ++ evs) ∧
    ((append_to_stream c stream evs none).1 =
        Except.ok (((lookupKV c.events stream).getD [] ++ evs).length - 1) ∧
      (lookupKV (append_to_stream c stream evs none).2.events stream).getD [] =
        (lookupKV c.events stream).getD [] ++ evs ∧
      (append_event ⟨c⟩ stream et dat md none eid niso).1 = Except.ok eid) := by
  rcases hl : lookupKV c.events stream with _ | evs0
  · refine ⟨?_, ?_, ?_⟩
    · intro hv
      simp only [Option.getD_none, List.length_nil] at hv
      refine ⟨?_, fun s2 => ?_, ?_⟩
      · simp [append_to_stream, hl, lookupKV_insertKV_self, hv, Except.isOk, Except.toBool]
      · by_cases hs : stream = s2
        · subst hs
          simp [append_to_stream, hl, lookupKV_insertKV_self, hv]
        · simp [append_to_stream, hl, lookupKV_insertKV_self, hv,
            lookupKV_insertKV_ne _ _ _ _ hs]
      · simp [append_event, append_to_stream, hl, lookupKV_insertKV_self, hv,
          Except.isOk, Except.toBool]
    · intro hv
      simp only [Option.getD_none, List.length_nil] at hv
      subst hv
      constructor
      · simp [append_to_stream, hl, lookupKV_insertKV_self]
      · simp [append_to_stream, hl, lookupKV_insertKV_self]
    · refine ⟨?_, ?_, ?_⟩ <;>
        simp [append_to_stream, append_event, hl, lookupKV_insertKV_self]
  · refine ⟨?_, ?_, ?_⟩
    · intro hv
      simp only [Option.getD_some] at hv
      refine ⟨?_, fun s2 => ?_, ?_⟩
      · simp [append_to_stream, hl, hv, Except.isOk, Except.toBool]
      · simp [append_to_stream, hl, hv]
      · simp [append_event, append_to_stream, hl, hv, Except.isOk, Except.toBool]
    · intro hv
      simp only [Option.getD_some] at hv
      subst hv
      constructor
      · simp [append_to_stream, hl, lookupKV_insertKV_self]
      · simp [append_to_stream, hl, lookupKV_insertKV_self]
    · refine ⟨?_, ?_, ?_⟩ <;>
        simp [append_to_stream, append_event, hl, lookupKV_insertKV_self]

end Origin

namespace Origin

/-- An empty, reachable ImmuDB manager. -/
def immuEx : ImmuDBManager := { available := true, store := [] }

/-- The example record content of the spec scenario. -/
def contentEx : Json := Json.obj [("title", Json.str "X")]

/-- The hex digest CPython produces for the canonical serialization of `contentEx`. -/
def contentExHash : String :=
  "04d4c4d191756c718f974c9d7d020e9f147987284d0d7d6ee29cb0232187947d"

/-- The record `store_record` builds for `contentEx` at millisecond timestamp 1234. -/
def goodRecord : GovRecord :=
  { record_id := "proposal-1234-04d4c4d1", record_type := "proposal",
    authority := "singularity", timestamp := 1234, content := contentEx,
    content_hash := contentExHash }

/-- `goodRecord` with its content tampered to `Y` but the original hash kept. -/
def tamperedRecord : GovRecord :=
  { record_id := "proposal-1234-04d4c4d1", record_type := "proposal",
    authority := "singularity", timestamp := 1234,
    content := Json.obj [("title", Json.str "Y")], content_hash := contentExHash }

/-- An ImmuDB manager whose stored bytes were modified out-of-band. -/
def immuTampered : ImmuDBManager :=
  { available := true, store := [("record:proposal-1234-04d4c4d1", tamperedRecord)] }

/-- A coordinator over the stored record whose event stream is empty (cross-store
drift). -/
def tripleDrift : TripleStoreManager :=
  { immudb_manager := (store_record immuEx "proposal" "singularity" contentEx 1234).2,
    event_store_manager := { client := { events := [] } },
    pg_manager := { connected := false }, verify_on_write := false,
    cross_verify_count := 0, inconsistency_count := 0 }

/-- C4 witness: storing the spec scenario content `\x7b"title": "X"\x7d` yields a
record whose hash is the canonical digest — byte-for-byte the one CPython computes —
a tampered copy is refused on retrieval, and the coordinator still serves the record
when its event stream is missing (drift). -/
theorem C4_record_content_integrity_witness :
    (∃ r, lookupKV (store_record immuEx "proposal" "singularity" contentEx 1234).2.store
        "record:proposal-1234-04d4c4d1" = some r ∧ r.content = contentEx ∧
      r.content_hash = sha256Hex (strBytes (canonicalDumps contentEx))) ∧
    sha256Hex (strBytes (canonicalDumps contentEx)) = contentExHash ∧
    get_record immuTampered "proposal-1234-04d4c4d1" = none ∧
    (get_governance_record tripleDrift "proposal-1234-04d4c4d1" true).1 =
      some goodRecord ∧
    read_stream tripleDrift.event_store_manager "record-proposal-1234-04d4c4d1" 0 100
      = [] := by
  have h := C4_record_content_integrity immuEx "proposal" "singularity" contentEx 1234
    "proposal-1234-04d4c4d1"
    (store_record immuEx "proposal" "singularity" contentEx 1234).2 rfl
  refine ⟨h.1, rfl, ?_, ?_, rfl⟩
  · exact h.2.2.1 immuTampered tamperedRecord rfl (by decide)
  · exact h.2.2.2 tripleDrift goodRecord rfl

/-- A coordinator whose tamper-evident backend is unreachable. -/
def tripleDown : TripleStoreManager :=
  { immudb_manager := { available := false, store := [] },
    event_store_manager := { client := { events := [] } },
    pg_manager := { connected := false }, verify_on_write := false,
    cross_verify_count := 0, inconsistency_count := 0 }

/-- C5 witness: with the tamper-evident backend unreachable, the coordinated store
aborts with `None` and the whole coordinator state unchanged. -/
theorem C5_immudb_first_write_abort_witness :
    store_governance_record tripleDown "proposal" "singularity" contentEx 1234 "ev-1"
      "2025-01-01T00:00:00" = (none, tripleDown) :=
  (C5_immudb_first_write_abort tripleDown "proposal" "singularity" contentEx 1234
    "ev-1" "2025-01-01T00:00:00" rfl).1

/-- An event already in the stream of the concurrency witness. -/
def eventEx : ESEvent :=
  { eventId := "ev-0", eventType := "ProposalSubmitted", data := contentEx,
    metadata := [("timestamp", Json.str "t0"), ("source", Json.str "governance_system")] }

/-- A client with one stream holding one event. -/
def clientEx : EventStoreClient := { events := [("record-r1", [eventEx])] }

/-- C6 witness: on a stream of length 1, expected version 5 is refused with the stream
unchanged, expected version 1 succeeds, and an append without a version succeeds. -/
theorem C6_event_optimistic_concurrency_witness :
    (append_to_stream clientEx "record-r1" [eventEx] (some 5)).1.isOk = false ∧
    (lookupKV (append_to_stream clientEx "record-r1" [eventEx] (some 5)).2.events
      "record-r1").getD [] = [eventEx] ∧
    (append_to_stream clientEx "record-r1" [eventEx] (some 1)).1 = Except.ok 1 ∧
    (append_event ⟨clientEx⟩ "record-r1" "ProposalApproved" contentEx none none
      "ev-1" "t1").1 = Except.ok "ev-1" := by
  have h5 := C6_event_optimistic_concurrency clientEx "record-r1" [eventEx] 5
    "ProposalApproved" contentEx none "ev-1" "t1"
  have h1 := C6_event_optimistic_concurrency clientEx "record-r1" [eventEx] 1
    "ProposalApproved" contentEx none "ev-1" "t1"
  have hv5 : (5 : Nat) ≠ ((lookupKV clientEx.events "record-r1").getD []).length := by
    decide
  refine ⟨(h5.1 hv5).1, ?_, ?_, h1.2.2.2.2⟩
  · exact ((h5.1 hv5).2.1 "record-r1").trans rfl
  · exact (h1.2.1 (by decide)).1.trans rfl

end Origin
